import Mathlib

/-!
Verification of the Algorand multi-token portfolio dashboard
(`PortfolioDashboard.tsx`, `SendAssetModal.tsx`, `CreateTokenModal.tsx`).

The TypeScript components are shallowly embedded: every network call is a
parameter holding that call's outcome (`Except` for a fallible request, a
function for a per-asset lookup), React `useState` setters become explicit
state records, and `enqueueSnackbar` calls are collected into a list of
notifications.  JavaScript numbers are modelled by `JsNumber` (a finite
rational, `NaN`, or a signed infinity), JavaScript `bigint` by `Int`, and
heterogeneous API fields by `JsVal` / `Option` (with `none` standing for a
nullish field).
-/

/-- A JavaScript `number`: a finite value (modelled exactly as a rational),
`NaN`, `Infinity`, or `-Infinity`. -/
inductive JsNumber where
  | finite (q : ℚ)
  | nan
  | inf
  | ninf
  deriving DecidableEq, Repr

namespace JsNumber

/-- JavaScript `Number.isFinite`. -/
def isFinite : JsNumber → Bool
  | .finite _ => true
  | _ => false

end JsNumber

/-- A heterogeneous JavaScript value as it may appear in an untyped API
response field: a number, a bigint, a string, or `null`.  An absent
(`undefined`) field is modelled by `Option JsVal`'s `none`. -/
inductive JsVal where
  | num (x : JsNumber)
  | big (n : ℤ)
  | str (s : String)
  | null
  deriving DecidableEq, Repr

/-- A value of TypeScript type `number | bigint` (the typed amount fields). -/
inductive JsAmount where
  | num (x : JsNumber)
  | big (n : ℤ)
  deriving DecidableEq, Repr

/-- The coercion `if (typeof amount === 'bigint') amount = Number(amount)`: the bigint
branch converts with `Number`, a plain number is left unchanged. -/
def amtNum : JsAmount → JsNumber
  | .num x => x
  | .big n => .finite n

/-- JavaScript `a ?? b`: `b` when `a` is `null` or `undefined`, else `a`. -/
def jsOr (a b : Option JsVal) : Option JsVal :=
  match a with
  | none => b
  | some .null => b
  | some v => some v

/-- Accumulating decimal parse of a character list: `some` of the value when
every character is a digit (the empty list yields the accumulator), `none`
otherwise. -/
def digitsValAux (acc : ℕ) : List Char → Option ℕ
  | [] => some acc
  | c :: cs =>
      let n := c.toNat
      if 48 ≤ n && n ≤ 57 then digitsValAux (acc * 10 + (n - 48)) cs else none

/-- JavaScript `Number(v)` on an optional heterogeneous value:
`undefined → NaN`, `null → 0`, a number is returned as is, a bigint converts
to its numeric value.  String conversion is modelled for the fragment this
code exercises: `"" → 0` and a plain decimal digit string parses to that
value, anything else is `NaN`. -/
def jsToNumber : Option JsVal → JsNumber
  | none => .nan
  | some .null => .finite 0
  | some (.num x) => x
  | some (.big n) => .finite n
  | some (.str s) =>
      match digitsValAux 0 s.data with
      | some n => .finite n
      | none => .nan

/-- JavaScript `Number(s)` for a plain string input field. -/
def strToNumber (s : String) : JsNumber :=
  jsToNumber (some (.str s))

/-- JavaScript `===` on two numbers: `NaN` is equal to nothing, finite
values and the two infinities compare structurally. -/
def jsStrictEqNum : JsNumber → JsNumber → Bool
  | .finite a, .finite b => a == b
  | .inf, .inf => true
  | .ninf, .ninf => true
  | _, _ => false

/-- JavaScript `x <= 0`: false for `NaN`. -/
def jsLeZero : JsNumber → Bool
  | .finite q => q ≤ 0
  | .nan => false
  | .inf => false
  | .ninf => true

/-- JavaScript `x > 0`: false for `NaN`. -/
def jsGtZero : JsNumber → Bool
  | .finite q => 0 < q
  | .nan => false
  | .inf => true
  | .ninf => false

/-- JavaScript division of a number by a nonzero-or-zero rational divisor:
`NaN` propagates, a finite value divided by a nonzero divisor is exact
rational division, division of a nonzero finite value by zero yields a
signed infinity and `0/0` yields `NaN`. -/
def jsDiv (x : JsNumber) (d : ℚ) : JsNumber :=
  match x with
  | .nan => .nan
  | .inf => if d < 0 then .ninf else .inf
  | .ninf => if d < 0 then .inf else .ninf
  | .finite q =>
      if d = 0 then
        if q = 0 then .nan else if 0 < q then .inf else .ninf
      else .finite (q / d)

/-- JavaScript `Math.pow(10, d)`.  For the integer exponents this dashboard produces
(asset `decimals`) the result is exact; a non-integral exponent never arises
from the embedded code paths and is mapped to `0`. -/
def mathPow10 (d : ℚ) : ℚ :=
  if d.den = 1 then
    if 0 ≤ d.num then (10 : ℚ) ^ d.num.toNat
    else ((10 : ℚ) ^ (-d.num).toNat)⁻¹
  else 0

/-- The first list is an initial segment of the second. -/
def leadsList : List Char → List Char → Bool
  | [], _ => true
  | _ :: _, [] => false
  | p :: ps, c :: cs => p == c && leadsList ps cs

/-- The pattern occurs as a contiguous sublist. -/
def subOccurs (pat : List Char) : List Char → Bool
  | [] => pat.isEmpty
  | c :: cs => leadsList pat (c :: cs) || subOccurs pat cs

/-- JavaScript `String.prototype.includes`: `pat` occurs as a substring of `s`. -/
def containsSub (s pat : String) : Bool :=
  subOccurs pat.data s.data

/-- JavaScript `String.prototype.toLowerCase`, character by character. -/
def lowerStr (s : String) : String :=
  String.mk (s.data.map Char.toLower)

/-- A `notistack` notification: `enqueueSnackbar(message, { variant })`. -/
inductive NotifVariant where
  | info
  | success
  | warning
  | error
  deriving DecidableEq, Repr

/-- One emitted snackbar notification. -/
structure Notif where
  variant : NotifVariant
  message : String
  deriving DecidableEq, Repr

/-! ## Account-information parsing (`PortfolioDashboard.loadPortfolio`, step 1) -/

/-- One raw entry of `acct.assets`.  The source reads the keys
`'asset-id'`, `.assetId` and `['assetId']`; the latter two denote the same
JavaScript property, so the entry carries two distinct fields. -/
structure RawAsset where
  assetIdHyphen : Option JsVal
  assetIdCamel : Option JsVal
  amount : Option JsVal
  deriving DecidableEq, Repr

/-- The raw algod account-information response, as far as the dashboard
reads it: `acct.amount` (typed `number | bigint`) and `acct.assets`. -/
structure AccountInfo where
  amount : Option JsAmount
  assets : Option (List RawAsset)
  deriving Repr

/-- The read `const assetIdRaw = a['asset-id'] ?? a.assetId ?? a['assetId']` followed
by `typeof assetIdRaw === 'number' ? assetIdRaw : Number(assetIdRaw)`. -/
def entryAssetId (a : RawAsset) : JsNumber :=
  let assetIdRaw := jsOr a.assetIdHyphen (jsOr a.assetIdCamel a.assetIdCamel)
  match assetIdRaw with
  | some (.num x) => x
  | w => jsToNumber w

/-- The read `const amountRaw = a.amount ?? a['amount'] ?? 0` (both keys are the same
property) followed by the coercion
`typeof amountRaw === 'bigint' ? Number(amountRaw) : Number(amountRaw)`,
whose two branches are both `Number(amountRaw)`. -/
def entryAmount (a : RawAsset) : JsNumber :=
  jsToNumber (jsOr a.amount (jsOr a.amount (some (JsVal.num (.finite 0)))))

/-- The dashboard's `AssetHolding` display record. -/
structure AssetHolding where
  assetId : JsNumber
  amount : JsNumber
  decimals : Option ℚ
  name : Option String
  unitName : Option String
  deriving DecidableEq, Repr

/-- The body of the `.map` over `acct.assets ?? []`: coerce the asset id,
return `null` (here `none`) when it is not finite, otherwise keep the id and
the coerced amount. -/
def parseAssetEntry (a : RawAsset) : Option AssetHolding :=
  let assetId := entryAssetId a
  if assetId.isFinite then
    some { assetId := assetId, amount := entryAmount a,
           decimals := none, name := none, unitName := none }
  else none

/-- The pipeline `(acct.assets ?? []).map(...).filter((x) => x != null)`. -/
def parseAssets (l : List RawAsset) : List AssetHolding :=
  l.filterMap parseAssetEntry

/-! ## ASA metadata enrichment (`loadPortfolio`, step 2) -/

/-- The `params` record of a `getAssetByID` response, as far as the
dashboard reads it.  The three name keys and three unit keys are distinct
lookups in the source (`params.name ?? params['asset-name'] ?? params.assetName`
and `params['unit-name'] ?? params.unitName ?? params.unit`); they are typed
as strings by the SDK and modelled as optional strings, `none` standing for
a nullish field.  `decimals` is heterogeneous and coerced with `Number`. -/
structure AssetParams where
  name : Option String
  assetNameHyphen : Option String
  assetNameCamel : Option String
  unitNameHyphen : Option String
  unitNameCamel : Option String
  unit : Option String
  decimals : Option JsVal
  deriving Repr

/-- One step of the `Promise.all(rawAssets.map(async (asset) => ...))`
enrichment: on success the metadata fields are filled in
(`Number.isFinite(Number(params.decimals)) ? Number(params.decimals) : 0`),
on a failed lookup the fallback record is returned. -/
def enrichOne (assetRes : JsNumber → Except String AssetParams)
    (asset : AssetHolding) : AssetHolding :=
  match assetRes asset.assetId with
  | .ok params =>
      let name := (params.name <|> params.assetNameHyphen <|> params.assetNameCamel).getD "Unknown"
      let unitName := (params.unitNameHyphen <|> params.unitNameCamel <|> params.unit).getD "N/A"
      let decimals : ℚ :=
        match jsToNumber (jsOr params.decimals params.decimals) with
        | .finite q => q
        | _ => 0
      { asset with decimals := some decimals, name := some name, unitName := some unitName }
  | .error _ =>
      { asset with decimals := some 0, name := some "Unknown", unitName := some "N/A" }

/-- The lookup `assetMetaById.get(k)` for the `Map` built by
`enriched.forEach((a) => assetMetaById.set(a.assetId, a))`: a later `set`
with the same key overwrites an earlier one, so lookup finds the last
matching entry; `Map` keys compare with SameValueZero, so a `bigint` key
never matches the numeric keys inserted here. -/
def metaGet (meta : List AssetHolding) (k : JsAmount) : Option AssetHolding :=
  match k with
  | .num x => meta.reverse.find? (fun m => m.assetId == x)
  | .big _ => none

/-! ## Indexer transaction mapping (`loadPortfolio`, step 3) -/

/-- The `payment-transaction` body of an indexer transaction. -/
structure PayBody where
  amount : Option JsAmount
  deriving Repr

/-- The `asset-transfer-transaction` body of an indexer transaction. -/
structure AxferBody where
  assetId : Option JsAmount
  amount : Option JsAmount
  deriving Repr

/-- One transaction of the indexer `searchForTransactions` response, as far
as the dashboard reads it. -/
structure IndexerTxn where
  txType : Option String
  id : Option String
  group : Option String
  pay : Option PayBody
  axfer : Option AxferBody
  confirmedRound : Option JsAmount
  roundTime : Option JsAmount
  deriving Repr

/-- The React key / display id:
`t.id ?? ` interpolation of `t.group ?? 'grp'`, `t['confirmed-round']` and
the element index.  The synthesized form is kept structurally rather than as
a rendered string. -/
inductive TxId where
  | given (s : String)
  | synth (group : Option String) (round : Option JsAmount) (idx : ℕ)
  deriving DecidableEq, Repr

/-- The dashboard's `Txn` display record. -/
structure Txn where
  id : TxId
  type : Option String
  assetId : Option JsAmount
  amount : Option JsNumber
  decimals : Option ℚ
  round : Option JsAmount
  timestamp : Option JsAmount
  deriving Repr

/-- The body of `txRes.transactions?.map((t, index) => ...)` in
`PortfolioDashboard.tsx`: exact match on `t['tx-type']`; a `pay` transaction
takes its amount from the payment body (`?? 0`) with decimals `6`; an
`axfer` transaction takes asset id and amount from the asset-transfer body
and looks decimals up in `assetMetaById` under `assetId ?? -1`, keeping the
initial `0` when the lookup misses or the found record's `decimals` is not
a number; a bigint amount is coerced with `Number`. -/
def mapTxn (meta : List AssetHolding) (idx : ℕ) (t : IndexerTxn) : Txn :=
  let datum : JsAmount × ℚ × Option JsAmount :=
    if t.txType = some "pay" then
      ((t.pay.bind PayBody.amount).getD (JsAmount.num (.finite 0)), 6, none)
    else if t.txType = some "axfer" then
      let assetId := t.axfer.bind AxferBody.assetId
      let amount := (t.axfer.bind AxferBody.amount).getD (JsAmount.num (.finite 0))
      let decimals : ℚ :=
        match metaGet meta (assetId.getD (JsAmount.num (.finite (-1)))) with
        | some m => match m.decimals with | some d => d | none => 0
        | none => 0
      (amount, decimals, assetId)
    else (JsAmount.num (.finite 0), 0, none)
  { id := match t.id with
      | some s => .given s
      | none => .synth t.group t.confirmedRound idx
    type := t.txType
    assetId := datum.2.2
    amount := some (amtNum datum.1)
    decimals := some datum.2.1
    round := t.confirmedRound
    timestamp := t.roundTime }

/-- A list map `.map((t, index) => ...)` with its element index. -/
def mapWithIdx (f : ℕ → IndexerTxn → Txn) : ℕ → List IndexerTxn → List Txn
  | _, [] => []
  | i, t :: ts => f i t :: mapWithIdx f (i + 1) ts

/-! ## The `loadPortfolio` state transformer -/

/-- The component state touched by `loadPortfolio`: the `useState` cells
`algoBalance`, `assets`, `txns` and `loading`. -/
structure DashState where
  algoBalance : Option JsNumber
  assets : List AssetHolding
  txns : List Txn
  loading : Bool

/-- One network request issued during a portfolio load. -/
inductive Request where
  | acctReq (addr : String)
  | assetById (id : JsNumber)
  | searchTx (addr : String)
  deriving DecidableEq, Repr

/-- The observable effect of one `loadPortfolio` call: the final state, the
notifications emitted, and the requests issued grouped into batches — the
requests of one batch are in flight together (a `Promise.all`), batches are
awaited strictly one after another. -/
structure LoadRun where
  state : DashState
  notifs : List Notif
  requests : List (List Request)

/-- The function `loadPortfolio` of `PortfolioDashboard.tsx`, with every network outcome
passed in explicitly: `acctRes` is the `accountInformation` outcome,
`assetRes` the per-id `getAssetByID` outcome, `searchRes` the
`searchForTransactions` outcome (`.ok none` models a response without a
`transactions` array; the request error is modelled by its rendered
message). -/
def runLoadDashboard (addr : Option String)
    (acctRes : Except String AccountInfo)
    (assetRes : JsNumber → Except String AssetParams)
    (searchRes : Except String (Option (List IndexerTxn)))
    (s : DashState) : LoadRun :=
  match addr with
  | none => ⟨s, [], []⟩
  | some a =>
    let s := { s with loading := true }
    match acctRes with
    | .error e =>
        ⟨{ s with loading := false },
         [⟨.error, "Failed to load portfolio data: " ++ e⟩],
         [[.acctReq a]]⟩
    | .ok acct =>
        let algoRaw : JsNumber :=
          match acct.amount with
          | some (.big n) => .finite n
          | some (.num x) => x
          | none => .finite 0
        let s := { s with algoBalance := some (jsDiv algoRaw 1000000) }
        let rawAssets := parseAssets (acct.assets.getD [])
        let enriched := rawAssets.map (enrichOne assetRes)
        let s := { s with assets := enriched }
        let metaBatch := rawAssets.map (fun h => Request.assetById h.assetId)
        match searchRes with
        | .error _ =>
            ⟨{ s with loading := false },
             [⟨.warning, "Failed to load recent transactions from indexer"⟩],
             [[.acctReq a], metaBatch, [.searchTx a]]⟩
        | .ok ts =>
            ⟨{ s with txns := mapWithIdx (mapTxn enriched) 0 (ts.getD []), loading := false },
             [],
             [[.acctReq a], metaBatch, [.searchTx a]]⟩

/-! ## Derived display values -/

/-- The count `assets.filter((a) => Number.isFinite(a.assetId) && (a.amount ?? 0) > 0).length`
(the `amount` field is never nullish, so `?? 0` passes it through). -/
def validAssetsCount (assets : List AssetHolding) : ℕ :=
  (assets.filter (fun a => a.assetId.isFinite && jsGtZero a.amount)).length

/-- The assets table renders one `<tr>` per entry of `assets`. -/
def renderedAssetRows (assets : List AssetHolding) : ℕ :=
  assets.length

/-- The value shown in a table cell: either a literal string or a numeric
value (the source renders it with `toLocaleString`, abstracted here as the
exact value). -/
inductive Rendered where
  | lit (s : String)
  | value (x : JsNumber)
  deriving DecidableEq, Repr

/-- The function `formatTxnAmount`: an em dash for a nullish amount, otherwise
`t.amount / Math.pow(10, t.decimals ?? 0)`. -/
def formatTxnAmount (t : Txn) : Rendered :=
  match t.amount with
  | none => .lit "—"
  | some x => .value (jsDiv x (mathPow10 (t.decimals.getD 0)))

/-! ## `SendAssetModal.handleSend` -/

/-- The three controlled input fields of the send modal. -/
structure SendState where
  assetId : String
  receiver : String
  amount : String
  deriving DecidableEq, Repr

/-- The outcome of one `algorand.send.assetTransfer(...)` (or
`assetCreate`) attempt: success carrying `result.txIds?.[0]`, or a rejection
carrying `String(err)`. -/
inductive SendOutcome where
  | ok (txId : Option String)
  | err (msg : String)
  deriving DecidableEq, Repr

/-- The test `String(err).toLowerCase().includes('txn dead')`. -/
def isTxnDeadMsg (em : String) : Bool :=
  containsSub (lowerStr em) "txn dead"

/-- How the retry `while` loop of `handleSend` ended: `success` via the
`break` after a successful send, `thrown` via the rethrow to the outer
catch, or `fellThrough` when the guard `attempt < 2` stops the loop with no
send having succeeded.  Each constructor carries the number of
`assetTransfer` attempts made. -/
inductive LoopResult where
  | success (attempts : ℕ)
  | thrown (msg : String) (attempts : ℕ)
  | fellThrough (attempts : ℕ)
  deriving DecidableEq, Repr

/-- The `attempts` carried by a `LoopResult`. -/
def attemptsOf : LoopResult → ℕ
  | .success n => n
  | .thrown _ n => n
  | .fellThrough n => n

/-- The body of `while (attempt < 2) { ... }` in the retrying
`SendAssetModal`: try the send at the current `attempt`; on success emit the
success snackbar and `break`; on an error whose lowercased string contains
`'txn dead'` while `attempt === 0`, emit the retry snackbar, increment
`attempt` and `continue`; on any other error rethrow.  `outcomes n` is the
outcome of the `n`-th send attempt. -/
def sendLoopFrom (outcomes : ℕ → SendOutcome) (attempt : ℕ) :
    LoopResult × List Notif :=
  if _h : attempt < 2 then
    match outcomes attempt with
    | .ok tid =>
        (.success (attempt + 1),
         [⟨.success, "Asset transfer sent: " ++ tid.getD "sent"⟩])
    | .err em =>
        if isTxnDeadMsg em && attempt == 0 then
          let rest := sendLoopFrom outcomes (attempt + 1)
          (rest.1, ⟨.info, "Stale tx params detected, retrying..."⟩ :: rest.2)
        else (.thrown em (attempt + 1), [])
  else (.fellThrough attempt, [])
termination_by 2 - attempt

/-- The retry loop entered with `attempt = 0`. -/
def sendLoop (outcomes : ℕ → SendOutcome) : LoopResult × List Notif :=
  sendLoopFrom outcomes 0

/-- The observable effect of one `handleSend` call. -/
structure SendRun where
  attempts : ℕ
  notifs : List Notif
  fields : SendState
  closed : Bool
  deriving Repr

/-- The outer-catch handler shared by both `SendAssetModal` variants:
a message containing `'must optin'` gets the opt-in warning, anything else
the generic error snackbar. -/
def sendCatch (msg : String) : Notif :=
  if containsSub msg "must optin" then
    ⟨.warning, "Receiver must opt-in to this ASA in their wallet before they can receive it."⟩
  else ⟨.error, "Failed to send asset transfer"⟩

/-- The function `handleSend` of the retrying `SendAssetModal` variant: the wallet guard,
the empty-field guard, the `Number(amount) <= 0` guard, the receiver
opt-in pre-check (`recvRes` is the `accountInformation(receiver)` outcome),
then the retry loop; on success the three fields are cleared and the modal
closed, on a rethrown error the outer catch leaves the fields alone. -/
def handleSend (connected : Bool) (f : SendState)
    (recvRes : Except String AccountInfo)
    (outcomes : ℕ → SendOutcome) : SendRun :=
  if !connected then
    ⟨0, [⟨.warning, "Please connect your wallet first"⟩], f, false⟩
  else if f.assetId = "" || f.receiver = "" || f.amount = "" then
    ⟨0, [⟨.warning, "Please fill in all fields"⟩], f, false⟩
  else if jsLeZero (strToNumber f.amount) then
    ⟨0, [⟨.warning, "Amount must be greater than zero"⟩], f, false⟩
  else
    match recvRes with
    | .error _ =>
        ⟨0, [⟨.warning, "Unable to verify receiver opt-in status. Aborting send."⟩], f, false⟩
    | .ok recvAcct =>
        let hasOptIn := (recvAcct.assets.getD []).any
          (fun x => jsStrictEqNum (entryAssetId x) (strToNumber f.assetId))
        if !hasOptIn then
          ⟨0, [⟨.warning, "Receiver must opt-in to receive this asset."⟩], f, false⟩
        else
          let sending : Notif := ⟨.info, "Sending ASA transfer..."⟩
          match sendLoop outcomes with
          | (.success n, ns) => ⟨n, sending :: ns, ⟨"", "", ""⟩, true⟩
          | (.thrown em n, ns) => ⟨n, sending :: ns ++ [sendCatch em], f, false⟩
          | (.fellThrough n, ns) => ⟨n, sending :: ns, ⟨"", "", ""⟩, true⟩

/-- The function `handleSend` of the plain `SendAssetModal` variant (no opt-in pre-check,
no retry): the same three guards, then a single `assetTransfer`; its success
snackbar interpolates `result.txIds[0]`, rendering a missing entry the way a
template literal renders `undefined`. -/
def handleSendSimple (connected : Bool) (f : SendState)
    (outcome : SendOutcome) : SendRun :=
  if !connected then
    ⟨0, [⟨.warning, "Please connect your wallet first"⟩], f, false⟩
  else if f.assetId = "" || f.receiver = "" || f.amount = "" then
    ⟨0, [⟨.warning, "Please fill in all fields"⟩], f, false⟩
  else if jsLeZero (strToNumber f.amount) then
    ⟨0, [⟨.warning, "Amount must be greater than zero"⟩], f, false⟩
  else
    let sending : Notif := ⟨.info, "Sending ASA transfer..."⟩
    match outcome with
    | .ok tid =>
        ⟨1, [sending, ⟨.success, "Asset transfer sent: " ++ tid.getD "undefined"⟩],
         ⟨"", "", ""⟩, true⟩
    | .err em => ⟨1, [sending, sendCatch em], f, false⟩

/-! ## `CreateTokenModal.handleCreate` -/

/-- The outcome of the single `algorand.send.assetCreate(...)` call:
success carrying `result.confirmation?.assetIndex`, or a rejection. -/
inductive CreateOutcome where
  | ok (assetIndex : Option ℤ)
  | err (msg : String)
  deriving DecidableEq, Repr

/-- The observable effect of one `handleCreate` call. -/
structure CreateRun where
  attempts : ℕ
  notifs : List Notif
  closed : Bool
  deriving Repr

/-- The function `handleCreate` of `CreateTokenModal.tsx`: the wallet guard, then exactly
one `assetCreate` inside a `try`; success shows the created asset id and
closes the modal, failure shows the error snackbar — there is no loop and no
second attempt. -/
def handleCreate (connected : Bool) (outcome : CreateOutcome) : CreateRun :=
  if !connected then
    ⟨0, [⟨.warning, "Please connect wallet first"⟩], false⟩
  else
    let creating : Notif := ⟨.info, "Creating token..."⟩
    match outcome with
    | .ok ai =>
        ⟨1, [creating,
             ⟨.success, "Token created! Asset ID: " ++
               (match ai with | some n => toString n | none => "undefined")⟩],
         true⟩
    | .err _ => ⟨1, [creating, ⟨.error, "Failed to create token"⟩], false⟩

/-! ## Theorems -/

/-- C1: In `SendAssetModal`'s `handleSend`, the `assetTransfer` send is
attempted at most twice per invocation; a second attempt occurs if and only
if the first attempt fails with an error whose string representation
contains `'txn dead'` case-insensitively; any other first-attempt error, and
any failure of the second attempt, is rethrown to the outer catch handler
unchanged; and the `while` loop never exhausts its guard without a definite
outcome, so it always terminates after at most two sends. -/
theorem C1_retry_bounded (outcomes : ℕ → SendOutcome) :
    attemptsOf (sendLoop outcomes).1 ≤ 2 ∧
    (attemptsOf (sendLoop outcomes).1 = 2 ↔
      ∃ e, outcomes 0 = .err e ∧ isTxnDeadMsg e = true) ∧
    (∀ e, outcomes 0 = .err e → isTxnDeadMsg e = false →
      (sendLoop outcomes).1 = .thrown e 1) ∧
    (∀ e e2, outcomes 0 = .err e → isTxnDeadMsg e = true →
      outcomes 1 = .err e2 → (sendLoop outcomes).1 = .thrown e2 2) ∧
    (∀ n, (sendLoop outcomes).1 ≠ .fellThrough n) := by
  cases h0 : outcomes 0 with
  | ok tid =>
    simp [sendLoop, sendLoopFrom, h0, attemptsOf]
  | err em =>
    by_cases htd : isTxnDeadMsg em = true
    · cases h1 : outcomes 1 with
      | ok tid2 =>
        simp [sendLoop, sendLoopFrom, h0, h1, htd, attemptsOf]
      | err em2 =>
        simp [sendLoop, sendLoopFrom, h0, h1, htd, attemptsOf]
    · simp only [Bool.not_eq_true] at htd
      simp [sendLoop, sendLoopFrom, h0, htd, attemptsOf]
      intro e e2 he hd
      subst he
      simp [htd] at hd

/-- C1 witness: with a first attempt that dies with a stale-round error and
a second that succeeds, exactly two send attempts are made. -/
theorem C1_retry_bounded_witness :
    attemptsOf (sendLoop (fun n => if n = 0 then SendOutcome.err "TransactionPool.Remember: txn dead" else SendOutcome.ok (some "TX1"))).1 = 2 :=
  (C1_retry_bounded _).2.1.mpr
    ⟨"TransactionPool.Remember: txn dead", rfl, by decide⟩

/-- C2: When parsing the account-information response, an asset entry is
skipped exactly when its asset id — read from the keys `'asset-id'` /
`assetId` and coerced with `Number` — is not a finite number; every retained
entry carries that finite coerced asset id and the `Number`-coerced amount,
where a bigint amount becomes its numeric value and a missing amount
defaults to `0`; consequently every element of the parsed assets list has a
finite asset id. -/
theorem C2_defensive_parse (a : RawAsset) :
    (parseAssetEntry a = none ↔ (entryAssetId a).isFinite = false) ∧
    (∀ h, parseAssetEntry a = some h →
      h.assetId = entryAssetId a ∧ h.assetId.isFinite = true ∧
      h.amount = entryAmount a) ∧
    (∀ n : ℤ, a.amount = some (JsVal.big n) →
      ∀ h, parseAssetEntry a = some h → h.amount = .finite n) ∧
    (a.amount = none →
      ∀ h, parseAssetEntry a = some h → h.amount = .finite 0) ∧
    (∀ l h, h ∈ parseAssets l → h.assetId.isFinite = true) := by
  refine ⟨?_, ?_, ?_, ?_, ?_⟩
  · constructor
    · intro hnone
      by_contra hfin
      simp only [Bool.not_eq_false] at hfin
      simp [parseAssetEntry, hfin] at hnone
    · intro hfin
      simp [parseAssetEntry, hfin]
  · intro h hsome
    by_cases hfin : (entryAssetId a).isFinite = true
    · simp [parseAssetEntry, hfin] at hsome
      subst hsome
      exact ⟨rfl, hfin, rfl⟩
    · simp only [Bool.not_eq_true] at hfin
      simp [parseAssetEntry, hfin] at hsome
  · intro n hn h hsome
    by_cases hfin : (entryAssetId a).isFinite = true
    · simp [parseAssetEntry, hfin] at hsome
      subst hsome
      simp [entryAmount, hn, jsOr, jsToNumber]
    · simp only [Bool.not_eq_true] at hfin
      simp [parseAssetEntry, hfin] at hsome
  · intro hn h hsome
    by_cases hfin : (entryAssetId a).isFinite = true
    · simp [parseAssetEntry, hfin] at hsome
      subst hsome
      simp [entryAmount, hn, jsOr, jsToNumber]
    · simp only [Bool.not_eq_true] at hfin
      simp [parseAssetEntry, hfin] at hsome
  · intro l h hmem
    simp only [parseAssets, List.mem_filterMap] at hmem
    obtain ⟨x, _, hx⟩ := hmem
    by_cases hfin : (entryAssetId x).isFinite = true
    · simp [parseAssetEntry, hfin] at hx
      subst hx
      exact hfin
    · simp only [Bool.not_eq_true] at hfin
      simp [parseAssetEntry, hfin] at hx

/-- C2 witness: an entry with a string asset id `"7"` and a bigint amount
`5` is retained as asset `7` with amount `5`, and it appears in a parsed
list with a finite asset id. -/
theorem C2_defensive_parse_witness :
    ({ assetId := .finite 7, amount := .finite 5, decimals := none,
       name := none, unitName := none } : AssetHolding).amount = .finite 5 :=
  (C2_defensive_parse ⟨some (.str "7"), none, some (.big 5)⟩).2.2.1 5 rfl
    { assetId := .finite 7, amount := .finite 5, decimals := none,
      name := none, unitName := none } (by decide)

/-- C3: For every transaction mapped from the indexer search: a `'pay'`
transaction takes its amount from the `payment-transaction` body (defaulting
to `0`) with decimals `6` and no asset id; an `'axfer'` transaction takes
asset id and amount from the `asset-transfer-transaction` body, and its
decimals come from the enriched holdings map — the found holding's decimals
when the lookup hits, `0` when the asset id is not among the holdings; and a
bigint amount is coerced to a plain number in both cases. -/
theorem C3_txn_mapping (meta : List AssetHolding) (idx : ℕ) (t : IndexerTxn) :
    (t.txType = some "pay" →
      (mapTxn meta idx t).amount =
        some (amtNum ((t.pay.bind PayBody.amount).getD (JsAmount.num (.finite 0)))) ∧
      (mapTxn meta idx t).decimals = some 6 ∧
      (mapTxn meta idx t).assetId = none) ∧
    (t.txType = some "axfer" →
      (mapTxn meta idx t).assetId = t.axfer.bind AxferBody.assetId ∧
      (mapTxn meta idx t).amount =
        some (amtNum ((t.axfer.bind AxferBody.amount).getD (JsAmount.num (.finite 0)))) ∧
      (metaGet meta ((t.axfer.bind AxferBody.assetId).getD (JsAmount.num (.finite (-1)))) = none →
        (mapTxn meta idx t).decimals = some 0) ∧
      (∀ m, metaGet meta ((t.axfer.bind AxferBody.assetId).getD (JsAmount.num (.finite (-1)))) = some m →
        (mapTxn meta idx t).decimals = some (m.decimals.getD 0)) ∧
      (∀ x, t.axfer.bind AxferBody.assetId = some (JsAmount.num x) →
        (∀ h ∈ meta, h.assetId ≠ x) → (mapTxn meta idx t).decimals = some 0)) ∧
    (∀ n : ℤ, t.txType = some "pay" → t.pay.bind PayBody.amount = some (JsAmount.big n) →
      (mapTxn meta idx t).amount = some (.finite n)) ∧
    (∀ n : ℤ, t.txType = some "axfer" → t.axfer.bind AxferBody.amount = some (JsAmount.big n) →
      (mapTxn meta idx t).amount = some (.finite n)) := by
  refine ⟨?_, ?_, ?_, ?_⟩
  · intro hpay
    refine ⟨?_, ?_, ?_⟩ <;> simp [mapTxn, hpay]
  · intro hax
    have hne : t.txType ≠ some "pay" := by
      rw [hax]; simp
    refine ⟨?_, ?_, ?_, ?_, ?_⟩
    · simp [mapTxn, hax, hne]
    · simp [mapTxn, hax, hne]
    · intro hm
      simp [mapTxn, hax, hne, hm]
    · intro m hm
      simp [mapTxn, hax, hne, hm]
      cases m.decimals <;> simp
    · intro x hx hnot
      have hm : metaGet meta ((t.axfer.bind AxferBody.assetId).getD (JsAmount.num (.finite (-1)))) = none := by
        rw [hx]
        simp only [Option.getD_some, metaGet]
        rw [List.find?_eq_none]
        intro m hmem
        simp only [beq_iff_eq]
        exact hnot m (List.mem_reverse.mp hmem)
      simp [mapTxn, hax, hne, hm]
  · intro n hpay hamt
    simp [mapTxn, hpay, hamt, amtNum]
  · intro n hax hamt
    have hne : t.txType ≠ some "pay" := by
      rw [hax]; simp
    simp [mapTxn, hax, hne, hamt, amtNum]

/-- C3 witness: an `'axfer'` transaction with bigint amount `250` whose
asset `9` is held with decimals `2` maps to asset id `9`, amount `250` and
decimals `2`. -/
theorem C3_txn_mapping_witness :
    (mapTxn
      [{ assetId := .finite 9, amount := .finite 1, decimals := some 2,
         name := some "Nine", unitName := some "NIN" }] 0
      { txType := some "axfer", id := some "T", group := none, pay := none,
        axfer := some { assetId := some (JsAmount.num (.finite 9)),
                        amount := some (JsAmount.big 250) },
        confirmedRound := none, roundTime := none }).decimals = some 2 :=
  ((C3_txn_mapping _ 0 _).2.1 rfl).2.2.2.1
    { assetId := .finite 9, amount := .finite 1, decimals := some 2,
      name := some "Nine", unitName := some "NIN" } (by decide)

/-- C4: If the initial account-information request of `loadPortfolio` fails,
the `algoBalance`, `assets` and `txns` state cells keep their previous
values, exactly one notification — the portfolio-load error — is emitted,
and `loading` is `false` when the call returns; moreover `loading` ends up
`false` on every execution path of the call, whatever the outcomes of the
account request and the transaction search. -/
theorem C4_failure_preserves_state (a e : String)
    (assetRes : JsNumber → Except String AssetParams)
    (searchRes : Except String (Option (List IndexerTxn))) (s : DashState) :
    ((runLoadDashboard (some a) (.error e) assetRes searchRes s).state.algoBalance
        = s.algoBalance ∧
     (runLoadDashboard (some a) (.error e) assetRes searchRes s).state.assets
        = s.assets ∧
     (runLoadDashboard (some a) (.error e) assetRes searchRes s).state.txns
        = s.txns ∧
     (runLoadDashboard (some a) (.error e) assetRes searchRes s).notifs
        = [⟨NotifVariant.error, "Failed to load portfolio data: " ++ e⟩] ∧
     (runLoadDashboard (some a) (.error e) assetRes searchRes s).state.loading
        = false) ∧
    (∀ acctRes : Except String AccountInfo,
      (runLoadDashboard (some a) acctRes assetRes searchRes s).state.loading = false) := by
  constructor
  · refine ⟨rfl, rfl, rfl, rfl, rfl⟩
  · intro acctRes
    cases acctRes with
    | error e2 => rfl
    | ok acct =>
      cases searchRes with
      | error e3 => rfl
      | ok ts => rfl

/-- C7 counterexample: the claim that at no point during a portfolio load
are two node/indexer requests outstanding at the same time is false — for an
account holding two assets, the metadata stage issues its two `getAssetByID`
requests in one `Promise.all` batch, so the trace contains a batch of two
simultaneous requests. -/
theorem C7_counterexample :
    ¬ (∀ b ∈ (runLoadDashboard (some "ADDR")
        (.ok { amount := some (JsAmount.num (.finite 0)),
               assets := some
                 [⟨some (.num (.finite 1)), none, some (.num (.finite 10))⟩,
                  ⟨some (.num (.finite 2)), none, some (.num (.finite 20))⟩] })
        (fun _ => .error "meta down") (.ok (some []))
        ⟨none, [], [], false⟩).requests, b.length ≤ 1) := by
  decide

/-- C7 (amended): the network requests of one `loadPortfolio` call are
issued in sequential stages — the account-information request, then the ASA
metadata lookups, then the transaction search — and only the metadata stage
is a concurrent batch, holding one `getAssetByID` request per parsed asset;
the other stages are single requests, so overlap can only occur between
metadata lookups. -/
theorem C7_sequential_stages (a e : String) (acct : AccountInfo)
    (assetRes : JsNumber → Except String AssetParams)
    (searchRes : Except String (Option (List IndexerTxn))) (s : DashState) :
    (runLoadDashboard none (.error e) assetRes searchRes s).requests = [] ∧
    (runLoadDashboard (some a) (.error e) assetRes searchRes s).requests
      = [[Request.acctReq a]] ∧
    (runLoadDashboard (some a) (.ok acct) assetRes searchRes s).requests
      = [[Request.acctReq a],
         (parseAssets (acct.assets.getD [])).map (fun h => Request.assetById h.assetId),
         [Request.searchTx a]] := by
  refine ⟨rfl, rfl, ?_⟩
  cases searchRes with
  | error e2 => rfl
  | ok ts => rfl

/-- C5: Token creation makes exactly one `assetCreate` attempt per
invocation of `handleCreate` that passes the wallet guard — and never more
than one on any invocation; on failure the error snackbar is shown, the
modal stays open and no retry occurs; the retry loop exists only on the
asset-transfer side, where two send attempts are possible. -/
theorem C5_create_single_attempt (c : Bool) (o : CreateOutcome) :
    (handleCreate c o).attempts ≤ 1 ∧
    (c = true → (handleCreate c o).attempts = 1) ∧
    (∀ e, c = true → o = .err e →
      (handleCreate c o).attempts = 1 ∧
      (handleCreate c o).notifs =
        [⟨NotifVariant.info, "Creating token..."⟩,
         ⟨NotifVariant.error, "Failed to create token"⟩] ∧
      (handleCreate c o).closed = false) ∧
    (∃ outs : ℕ → SendOutcome, attemptsOf (sendLoop outs).1 = 2) := by
  refine ⟨?_, ?_, ?_, ?_⟩
  · cases c with
    | false => simp [handleCreate]
    | true => cases o <;> simp [handleCreate]
  · intro hc
    subst hc
    cases o <;> simp [handleCreate]
  · intro e hc ho
    subst hc
    subst ho
    exact ⟨rfl, rfl, rfl⟩
  · refine ⟨fun _ => SendOutcome.err "txn dead", ?_⟩
    have h : isTxnDeadMsg "txn dead" = true := by decide
    simp [sendLoop, sendLoopFrom, attemptsOf, h]

/-- C5 witness: a connected invocation whose `assetCreate` rejects makes
exactly one attempt and shows the error snackbar. -/
theorem C5_create_single_attempt_witness :
    (handleCreate true (.err "boom")).attempts = 1 ∧
    (handleCreate true (.err "boom")).notifs =
      [⟨NotifVariant.info, "Creating token..."⟩,
       ⟨NotifVariant.error, "Failed to create token"⟩] ∧
    (handleCreate true (.err "boom")).closed = false :=
  (C5_create_single_attempt true (.err "boom")).2.2.1 "boom" rfl rfl

/-- For a natural exponent, `Math.pow(10, d)` is the exact power. -/
lemma mathPow10_natCast (d : ℕ) : mathPow10 (d : ℚ) = 10 ^ d := by
  unfold mathPow10
  simp [Rat.den_natCast, Rat.num_natCast]

/-- The `algoBalance` written by a successful `loadPortfolio` is the coerced
raw amount divided by `1e6`, whatever the transaction search did. -/
lemma balance_of_success (a : String) (acct : AccountInfo)
    (assetRes : JsNumber → Except String AssetParams)
    (searchRes : Except String (Option (List IndexerTxn))) (s : DashState) :
    (runLoadDashboard (some a) (.ok acct) assetRes searchRes s).state.algoBalance
      = some (jsDiv
          (match acct.amount with
           | some (.big n) => .finite n
           | some (.num x) => x
           | none => .finite 0) 1000000) := by
  cases searchRes with
  | error e => rfl
  | ok ts => rfl

/-- C6: The displayed ALGO balance equals the account's `amount` divided by
`10^6` — a bigint amount is first converted to a number and a missing amount
is treated as `0` — and a displayed transaction amount equals the raw amount
divided by `10^decimals`, a nullish amount rendering as an em dash. -/
theorem C6_displayed_amounts (a : String) (acct : AccountInfo)
    (assetRes : JsNumber → Except String AssetParams)
    (searchRes : Except String (Option (List IndexerTxn))) (s : DashState)
    (t : Txn) :
    (∀ n : ℤ, acct.amount = some (JsAmount.big n) →
      (runLoadDashboard (some a) (.ok acct) assetRes searchRes s).state.algoBalance
        = some (.finite ((n : ℚ) / 10 ^ 6))) ∧
    (∀ q : ℚ, acct.amount = some (JsAmount.num (.finite q)) →
      (runLoadDashboard (some a) (.ok acct) assetRes searchRes s).state.algoBalance
        = some (.finite (q / 10 ^ 6))) ∧
    (acct.amount = none →
      (runLoadDashboard (some a) (.ok acct) assetRes searchRes s).state.algoBalance
        = some (.finite 0)) ∧
    (t.amount = none → formatTxnAmount t = .lit "—") ∧
    (∀ (q : ℚ) (d : ℕ), t.amount = some (.finite q) → t.decimals = some (d : ℚ) →
      formatTxnAmount t = .value (.finite (q / 10 ^ d))) := by
  have h6 : ((10 : ℚ) ^ 6) = 1000000 := by norm_num
  refine ⟨?_, ?_, ?_, ?_, ?_⟩
  · intro n hn
    rw [balance_of_success, hn, h6]
    norm_num [jsDiv]
  · intro q hq
    rw [balance_of_success, hq, h6]
    norm_num [jsDiv]
  · intro hn
    rw [balance_of_success, hn]
    norm_num [jsDiv]
  · intro hn
    simp [formatTxnAmount, hn]
  · intro q d hq hd
    have hpow : ((10 : ℚ) ^ d) ≠ 0 := pow_ne_zero d (by norm_num)
    simp [formatTxnAmount, hq, hd, mathPow10_natCast, jsDiv, hpow]

/-- C6 witness: a bigint account amount of `2500000` displays as `2.5` ALGO,
and a transaction of raw amount `150` with `2` decimals displays as `1.5`. -/
theorem C6_displayed_amounts_witness :
    (runLoadDashboard (some "A") (.ok { amount := some (JsAmount.big 2500000), assets := none })
        (fun _ => .error "x") (.ok none) ⟨none, [], [], false⟩).state.algoBalance
      = some (.finite ((2500000 : ℚ) / 10 ^ 6)) :=
  (C6_displayed_amounts "A" { amount := some (JsAmount.big 2500000), assets := none }
      (fun _ => .error "x") (.ok none) ⟨none, [], [], false⟩
      ⟨.given "t", none, none, none, none, none, none⟩).1 2500000 rfl

/-- C8: Whenever the wallet is not connected, or one of the three input
fields is empty, or `Number(amount)` is not greater than zero, `handleSend`
— in both `SendAssetModal` variants — makes no `assetTransfer` attempt,
emits exactly one warning notification, and leaves the three input fields
with their previous values. -/
theorem C8_input_guards (connected : Bool) (f : SendState)
    (recvRes : Except String AccountInfo) (outcomes : ℕ → SendOutcome)
    (o1 : SendOutcome)
    (hg : connected = false ∨ f.assetId = "" ∨ f.receiver = "" ∨ f.amount = "" ∨
      jsLeZero (strToNumber f.amount) = true) :
    ((handleSend connected f recvRes outcomes).attempts = 0 ∧
     (∃ m, (handleSend connected f recvRes outcomes).notifs
        = [⟨NotifVariant.warning, m⟩]) ∧
     (handleSend connected f recvRes outcomes).fields = f) ∧
    ((handleSendSimple connected f o1).attempts = 0 ∧
     (∃ m, (handleSendSimple connected f o1).notifs
        = [⟨NotifVariant.warning, m⟩]) ∧
     (handleSendSimple connected f o1).fields = f) := by
  cases connected with
  | false =>
    exact ⟨⟨rfl, ⟨"Please connect your wallet first", rfl⟩, rfl⟩,
           rfl, ⟨"Please connect your wallet first", rfl⟩, rfl⟩
  | true =>
    by_cases h1 : f.assetId = ""
    · refine ⟨⟨?_, ⟨"Please fill in all fields", ?_⟩, ?_⟩,
              ?_, ⟨"Please fill in all fields", ?_⟩, ?_⟩ <;>
        simp [handleSend, handleSendSimple, h1]
    · by_cases h2 : f.receiver = ""
      · refine ⟨⟨?_, ⟨"Please fill in all fields", ?_⟩, ?_⟩,
                ?_, ⟨"Please fill in all fields", ?_⟩, ?_⟩ <;>
          simp [handleSend, handleSendSimple, h1, h2]
      · by_cases h3 : f.amount = ""
        · refine ⟨⟨?_, ⟨"Please fill in all fields", ?_⟩, ?_⟩,
                  ?_, ⟨"Please fill in all fields", ?_⟩, ?_⟩ <;>
            simp [handleSend, handleSendSimple, h1, h2, h3]
        · have hle : jsLeZero (strToNumber f.amount) = true := by
            rcases hg with h | h | h | h | h
            · exact absurd h (by simp)
            · exact absurd h h1
            · exact absurd h h2
            · exact absurd h h3
            · exact h
          refine ⟨⟨?_, ⟨"Amount must be greater than zero", ?_⟩, ?_⟩,
                  ?_, ⟨"Amount must be greater than zero", ?_⟩, ?_⟩ <;>
            simp [handleSend, handleSendSimple, h1, h2, h3, hle]

/-- C8 witness: with the amount field `"0"` (so `Number(amount) <= 0`), no
transfer is attempted, one warning is shown, and the fields are kept. -/
theorem C8_input_guards_witness :
    (handleSend true ⟨"12", "RCVR", "0"⟩ (.ok { amount := none, assets := none })
      (fun _ => SendOutcome.ok none)).attempts = 0 :=
  (C8_input_guards true ⟨"12", "RCVR", "0"⟩ (.ok { amount := none, assets := none })
    (fun _ => SendOutcome.ok none) (SendOutcome.ok none)
    (Or.inr (Or.inr (Or.inr (Or.inr (by decide)))))).1.1

/-- C9: In the `SendAssetModal` variant with the opt-in pre-check, an
`assetTransfer` is attempted only when the receiver's account information
arrived and lists a holding whose coerced asset id strictly equals
`Number` of the entered asset id; when the verification request fails, or
the receiver is not opted in, the send aborts with zero transfer attempts,
a single warning, and unchanged input fields. -/
theorem C9_optin_precheck (connected : Bool) (f : SendState)
    (recvRes : Except String AccountInfo) (outcomes : ℕ → SendOutcome) :
    (1 ≤ (handleSend connected f recvRes outcomes).attempts →
      ∃ acct, recvRes = .ok acct ∧
        (acct.assets.getD []).any
          (fun x => jsStrictEqNum (entryAssetId x) (strToNumber f.assetId)) = true) ∧
    (∀ e, connected = true → f.assetId ≠ "" → f.receiver ≠ "" → f.amount ≠ "" →
      jsLeZero (strToNumber f.amount) = false → recvRes = .error e →
      (handleSend connected f recvRes outcomes).attempts = 0 ∧
      (handleSend connected f recvRes outcomes).notifs
        = [⟨NotifVariant.warning, "Unable to verify receiver opt-in status. Aborting send."⟩] ∧
      (handleSend connected f recvRes outcomes).fields = f) ∧
    (∀ acct, connected = true → f.assetId ≠ "" → f.receiver ≠ "" → f.amount ≠ "" →
      jsLeZero (strToNumber f.amount) = false → recvRes = .ok acct →
      (acct.assets.getD []).any
        (fun x => jsStrictEqNum (entryAssetId x) (strToNumber f.assetId)) = false →
      (handleSend connected f recvRes outcomes).attempts = 0 ∧
      (handleSend connected f recvRes outcomes).notifs
        = [⟨NotifVariant.warning, "Receiver must opt-in to receive this asset."⟩] ∧
      (handleSend connected f recvRes outcomes).fields = f) := by
  refine ⟨?_, ?_, ?_⟩
  · cases connected with
    | false => intro h; simp [handleSend] at h
    | true =>
      by_cases h1 : f.assetId = ""
      · intro h; simp [handleSend, h1] at h
      · by_cases h2 : f.receiver = ""
        · intro h; simp [handleSend, h1, h2] at h
        · by_cases h3 : f.amount = ""
          · intro h; simp [handleSend, h1, h2, h3] at h
          · by_cases hle : jsLeZero (strToNumber f.amount) = true
            · intro h; simp [handleSend, h1, h2, h3, hle] at h
            · simp only [Bool.not_eq_true] at hle
              cases recvRes with
              | error e => intro h; simp [handleSend, h1, h2, h3, hle] at h
              | ok acct =>
                by_cases hopt : (acct.assets.getD []).any
                    (fun x => jsStrictEqNum (entryAssetId x) (strToNumber f.assetId)) = true
                · intro _; exact ⟨acct, rfl, hopt⟩
                · simp only [Bool.not_eq_true] at hopt
                  intro h; simp [handleSend, h1, h2, h3, hle, hopt] at h
  · intro e hc h1 h2 h3 hle hrec
    subst hc
    subst hrec
    refine ⟨?_, ?_, ?_⟩ <;> simp [handleSend, h1, h2, h3, hle]
  · intro acct hc h1 h2 h3 hle hrec hopt
    subst hc
    subst hrec
    refine ⟨?_, ?_, ?_⟩ <;> simp [handleSend, h1, h2, h3, hle, hopt]

/-- A concrete receiver account for the C9 witness: it holds no assets. -/
def rcvrAcct : AccountInfo := ⟨none, none⟩

/-- C9 witness: a receiver holding no assets is not opted in to asset `12`,
so the send aborts with zero attempts, the opt-in warning, and unchanged
fields. -/
theorem C9_optin_precheck_witness :
    (handleSend true ⟨"12", "RCVR", "3"⟩ (.ok rcvrAcct)
        (fun _ => SendOutcome.ok (some "TX"))).attempts = 0 ∧
    (handleSend true ⟨"12", "RCVR", "3"⟩ (.ok rcvrAcct)
        (fun _ => SendOutcome.ok (some "TX"))).notifs
      = [⟨NotifVariant.warning, "Receiver must opt-in to receive this asset."⟩] ∧
    (handleSend true ⟨"12", "RCVR", "3"⟩ (.ok rcvrAcct)
        (fun _ => SendOutcome.ok (some "TX"))).fields = ⟨"12", "RCVR", "3"⟩ :=
  (C9_optin_precheck true ⟨"12", "RCVR", "3"⟩ (.ok rcvrAcct)
    (fun _ => SendOutcome.ok (some "TX"))).2.2 rcvrAcct rfl (by decide)
    (by decide) (by decide) (by decide) rfl (by decide)

/-- Enrichment never changes the asset id of a holding. -/
lemma enrichOne_assetId (assetRes : JsNumber → Except String AssetParams)
    (h : AssetHolding) : (enrichOne assetRes h).assetId = h.assetId := by
  unfold enrichOne
  cases assetRes h.assetId <;> rfl

/-- A concrete holding with a positive-free amount: asset `5`, amount `0`. -/
def zeroHolding : AssetHolding :=
  ⟨.finite 5, .finite 0, some 0, some "Zed", some "ZED"⟩

/-- C10: The `Number of Assets` value counts exactly the entries with a
finite asset id and amount strictly greater than zero, while the assets
table renders one row per entry; over the parsed-and-enriched holdings —
whose asset ids are all finite — the count reduces to the positive-amount
entries while every entry still gets a row, so a zero-amount holding makes
the displayed count smaller than the number of rendered rows. -/
theorem C10_count_vs_rows (assets : List AssetHolding) (raw : List RawAsset)
    (assetRes : JsNumber → Except String AssetParams) :
    validAssetsCount assets
      = assets.countP (fun x => x.assetId.isFinite && jsGtZero x.amount) ∧
    validAssetsCount assets ≤ renderedAssetRows assets ∧
    validAssetsCount ((parseAssets raw).map (enrichOne assetRes))
      = (((parseAssets raw).map (enrichOne assetRes)).filter
          (fun x => jsGtZero x.amount)).length ∧
    renderedAssetRows ((parseAssets raw).map (enrichOne assetRes))
      = (parseAssets raw).length ∧
    validAssetsCount [zeroHolding] = 0 ∧
    renderedAssetRows [zeroHolding] = 1 := by
  refine ⟨?_, ?_, ?_, ?_, ?_, ?_⟩
  · rw [validAssetsCount, List.countP_eq_length_filter]
  · exact List.length_filter_le _ _
  · rw [validAssetsCount]
    congr 1
    apply List.filter_congr
    intro x hx
    obtain ⟨y, hy, rfl⟩ := List.mem_map.mp hx
    obtain ⟨z, _, hz⟩ := List.mem_filterMap.mp hy
    have hfin : y.assetId.isFinite = true := by
      by_cases hf : (entryAssetId z).isFinite = true
      · simp [parseAssetEntry, hf] at hz
        subst hz
        exact hf
      · simp only [Bool.not_eq_true] at hf
        simp [parseAssetEntry, hf] at hz
    rw [enrichOne_assetId, hfin, Bool.true_and]
  · exact List.length_map _ _
  · decide
  · decide
